import Mathlib

/-!
# Email domain checker: `checkDomain` and `checkHandler` (src/main.go)

A shallow embedding of the two functions of `src/main.go` that carry logic:

* `checkDomain` (lines 78-117): three DNS lookups (MX for the domain, TXT for
  the domain, TXT for `"_dmarc." + domain`) folded into a `DomainCheck`;
* `checkHandler` (lines 61-75): the method check, the empty-domain check and
  the call of `checkDomain`.

Modelling decisions.

* A Go `string` is a Lean `String`, a sequence of characters.  The only string
  operations of the program are `==`, `+` and `strings.HasPrefix` against the
  ASCII literals `"v=spf1"` and `"v=DMARC1"`; on UTF-8 text a byte-wise
  comparison with an ASCII literal and the character-wise one agree, so
  lengths and slices are counted in characters here.
* The resolver (`net.LookupMX`, `net.LookupTXT`) is the environment of the
  program; it is a parameter, `Resolver`, giving for each queried name the Go
  result pair `(records, err)`, where `err = none` is Go's `nil`.
* The function-local variables of `checkDomain` are the record `Locals`; each
  of the three blocks of the body is a function `Locals → Locals`.  The record
  carries, besides the Go variables, the list of DNS queries issued so far,
  so that "which lookups were made" can be stated.
-/

namespace EmailChecker

/-! ## Data model -/

/-- Go's `error` values; `Option GoError` is an `error` variable, `none` being `nil`. -/
abbrev GoError := String

/-- The `net.MX` record: host name and preference. -/
structure MX where
  Host : String
  Pref : Nat
  deriving DecidableEq

/-- The struct `DomainCheck` of src/main.go, lines 46-53. -/
structure DomainCheck where
  Domain : String
  HasMX : Bool
  HasSPF : Bool
  SPFRecord : String
  HasDMARC : Bool
  DMARCRecord : String
  deriving DecidableEq

/-- A DNS query as issued by the program: the record type and the queried name. -/
inductive Query where
  | MX (name : String)
  | TXT (name : String)
  deriving DecidableEq

/-- The resolver the program runs against: for each name, the result pair
`(records, err)` of `net.LookupMX` and of `net.LookupTXT`. -/
structure Resolver where
  LookupMX : String → List MX × Option GoError
  LookupTXT : String → List String × Option GoError

/-! ## `strings.HasPrefix` -/

/-- Go's `strings.HasPrefix(s, prefix)`:
`len(s) >= len(prefix) && s[:len(prefix)] == prefix`. -/
def HasPrefix (s pfx : String) : Bool :=
  decide (pfx.length ≤ s.length) && decide (s.data.take pfx.length = pfx.data)

/-! ## `checkDomain` -/

/-- The local variables of `checkDomain` (lines 79-80 and the reused `err`),
together with the DNS queries issued so far. -/
structure Locals where
  hasMX : Bool
  hasSPF : Bool
  hasDMARC : Bool
  spfRecord : String
  dmarcRecord : String
  err : Option GoError
  issued : List Query
  deriving DecidableEq

/-- Lines 79-80: every variable starts at Go's zero value; nothing is issued yet. -/
def Locals.zero : Locals :=
  { hasMX := false, hasSPF := false, hasDMARC := false,
    spfRecord := "", dmarcRecord := "", err := none, issued := [] }

/-- Lines 82-85: the MX lookup and its test `err == nil && len(mxRecords) > 0`. -/
def stepMX (res : Resolver) (domain : String) (e : Locals) : Locals :=
  let mxRecords := (res.LookupMX domain).1
  let err := (res.LookupMX domain).2
  let e1 := { e with err := err, issued := e.issued ++ [Query.MX domain] }
  if err.isNone && decide (mxRecords.length > 0) then { e1 with hasMX := true } else e1

/-- Lines 89-95: the `for ... range txtRecords` loop with its `break`. -/
def scanSPF : List String → Locals → Locals
  | [], e => e
  | record :: rest, e =>
    if HasPrefix record "v=spf1" then { e with hasSPF := true, spfRecord := record }
    else scanSPF rest e

/-- Lines 87-96: the TXT lookup for the domain, scanned when `err == nil`. -/
def stepSPF (res : Resolver) (domain : String) (e : Locals) : Locals :=
  let txtRecords := (res.LookupTXT domain).1
  let err := (res.LookupTXT domain).2
  let e1 := { e with err := err, issued := e.issued ++ [Query.TXT domain] }
  if err.isNone then scanSPF txtRecords e1 else e1

/-- Lines 100-106: the `for ... range dmarcRecords` loop with its `break`. -/
def scanDMARC : List String → Locals → Locals
  | [], e => e
  | record :: rest, e =>
    if HasPrefix record "v=DMARC1" then { e with hasDMARC := true, dmarcRecord := record }
    else scanDMARC rest e

/-- Lines 98-107: the TXT lookup for `"_dmarc." + domain`, scanned when `err == nil`. -/
def stepDMARC (res : Resolver) (domain : String) (e : Locals) : Locals :=
  let dmarcRecords := (res.LookupTXT ("_dmarc." ++ domain)).1
  let err := (res.LookupTXT ("_dmarc." ++ domain)).2
  let e1 := { e with err := err, issued := e.issued ++ [Query.TXT ("_dmarc." ++ domain)] }
  if err.isNone then scanDMARC dmarcRecords e1 else e1

/-- Lines 109-116: the returned struct literal. -/
def assemble (domain : String) (e : Locals) : DomainCheck :=
  { Domain := domain, HasMX := e.hasMX, HasSPF := e.hasSPF, SPFRecord := e.spfRecord,
    HasDMARC := e.hasDMARC, DMARCRecord := e.dmarcRecord }

/-- The body of `checkDomain` up to the `return`: the three blocks in source order. -/
def checkDomainLocals (res : Resolver) (domain : String) : Locals :=
  stepDMARC res domain (stepSPF res domain (stepMX res domain Locals.zero))

/-- The function `checkDomain` of src/main.go, lines 78-117. -/
def checkDomain (res : Resolver) (domain : String) : DomainCheck :=
  assemble domain (checkDomainLocals res domain)

/-- The DNS queries one call of `checkDomain` issues, in order. -/
def checkDomainQueries (res : Resolver) (domain : String) : List Query :=
  (checkDomainLocals res domain).issued

/-! ## Reading a response -/

/-- The first record of a response that carries the prefix, when the lookup
succeeded; `none` when it failed or no record matches. -/
def firstWith (pfx : String) (resp : List String × Option GoError) : Option String :=
  if resp.2.isNone then resp.1.find? (fun r => HasPrefix r pfx) else none

/-! ## `checkHandler` -/

/-- The part of `*http.Request` the handler reads: the method and the parsed
form (Go's `url.Values`: each key maps to its list of values, no value being
the empty list). -/
structure Request where
  Method : String
  Form : String → List String

/-- Go's `(*Request).FormValue(key)`: the first value of `key` in the parsed
form, or `""` when there is none. -/
def Request.FormValue (r : Request) (key : String) : String :=
  match r.Form key with
  | v :: _ => v
  | [] => ""

/-- What a handler wrote as the response body: the text of an `http.Error`, or
the template executed on its data (`nil` or a `DomainCheck`). -/
inductive Body where
  | text (msg : String)
  | page (data : Option DomainCheck)
  deriving DecidableEq

/-- The response as seen by the client: status code and body. -/
structure Response where
  status : Nat
  body : Body
  deriving DecidableEq

/-- One run of a handler: the response, the arguments of the calls of
`checkDomain` it made (in order), and the DNS queries issued. -/
structure Handled where
  response : Response
  checked : List String
  issued : List Query
  deriving DecidableEq

/-- The constant `http.MethodPost`. -/
def MethodPost : String := "POST"

/-- The constant `http.StatusOK`. -/
def StatusOK : Nat := 200

/-- The constant `http.StatusBadRequest`. -/
def StatusBadRequest : Nat := 400

/-- The constant `http.StatusMethodNotAllowed`. -/
def StatusMethodNotAllowed : Nat := 405

/-- Go's `http.Error(w, msg, code)`: status `code`, body `msg` and a newline. -/
def httpError (msg : String) (code : Nat) : Response :=
  { status := code, body := Body.text (msg ++ "\n") }

/-- Go's `tmpl.Execute(w, data)` on a fresh response writer: the first write
sends status 200, and the body is the template executed on `data`. -/
def tmplExecute (data : Option DomainCheck) : Response :=
  { status := StatusOK, body := Body.page data }

/-- The function `checkHandler` of src/main.go, lines 61-75. -/
def checkHandler (res : Resolver) (r : Request) : Handled :=
  if r.Method != MethodPost then
    { response := httpError "Invalid request method" StatusMethodNotAllowed,
      checked := [], issued := [] }
  else
    let domain := r.FormValue "domain"
    if domain == "" then
      { response := httpError "Domain is required" StatusBadRequest,
        checked := [], issued := [] }
    else
      let result := checkDomain res domain
      { response := tmplExecute (some result),
        checked := [domain], issued := checkDomainQueries res domain }

/-! ## The three lookups in an arbitrary order -/

/-- The three blocks of the body of `checkDomain`. -/
inductive Lookup where
  | MX
  | SPF
  | DMARC
  deriving DecidableEq

/-- The block of `checkDomain` a `Lookup` names. -/
def Lookup.step : Lookup → Resolver → String → Locals → Locals
  | Lookup.MX => stepMX
  | Lookup.SPF => stepSPF
  | Lookup.DMARC => stepDMARC

/-- The body of `checkDomain` with its blocks performed in the given order;
the source order is `[MX, SPF, DMARC]`. -/
def checkDomainInOrder (order : List Lookup) (res : Resolver) (domain : String) : DomainCheck :=
  assemble domain (order.foldl (fun e l => l.step res domain e) Locals.zero)

/-! ## Example resolvers -/

/-- A resolver for the scenario of the specification: `example.com` has one MX
record, an SPF record followed by an unrelated TXT record, and a DMARC record;
every other name fails to resolve. -/
def resExample : Resolver :=
  { LookupMX := fun n =>
      if n = "example.com" then ([⟨"mail.example.com.", 10⟩], none)
      else ([], some "no such host"),
    LookupTXT := fun n =>
      if n = "example.com" then
        (["v=spf1 include:_spf.example.com ~all", "unrelated=1"], none)
      else if n = "_dmarc.example.com" then (["v=DMARC1; p=none;"], none)
      else ([], some "no such host") }

/-- A resolver every lookup of which fails. -/
def resFailing : Resolver :=
  { LookupMX := fun _ => ([], some "no such host"),
    LookupTXT := fun _ => ([], some "no such host") }

/-- A resolver whose MX answer for `example.com` holds one record together
with a non-nil error, as `net.LookupMX` returns when it has dropped malformed
records from the answer. -/
def resPartial : Resolver :=
  { LookupMX := fun n =>
      if n = "example.com" then
        ([⟨"mail.example.com.", 10⟩], some "DNS response contained records which contain invalid names")
      else ([], some "no such host"),
    LookupTXT := fun _ => ([], some "no such host") }

/-- A resolver that answers only the TXT query for `_dmarc._dmarc.example.com.`,
with two DMARC records after an unrelated one. -/
def resDotted : Resolver :=
  { LookupMX := fun _ => ([], some "no such host"),
    LookupTXT := fun n =>
      if n = "_dmarc._dmarc.example.com." then
        (["spf=none", "v=DMARC1; p=reject;", "v=DMARC1; p=none;"], none)
      else ([], some "no such host") }

/-- A POST request whose form has no `domain` value. -/
def reqPostNoDomain : Request :=
  { Method := "POST", Form := fun _ => [] }

/-- A POST request whose form has `domain=example.com`. -/
def reqPostExample : Request :=
  { Method := "POST", Form := fun k => if k = "domain" then ["example.com"] else [] }

/-- A GET request whose form has `domain=` (the empty string). -/
def reqGetEmpty : Request :=
  { Method := "GET", Form := fun k => if k = "domain" then [""] else [] }

/-- The resolver `resExample` with a `"v=DMARC1"` record put first in the TXT
response for `example.com` itself. -/
def resApexDmarc : Resolver :=
  { LookupMX := resExample.LookupMX,
    LookupTXT := fun n =>
      if n = "example.com" then
        (["v=DMARC1; p=reject;", "v=spf1 include:_spf.example.com ~all", "unrelated=1"], none)
      else resExample.LookupTXT n }

/-- The resolver `resExample` with every MX lookup failing. -/
def resMXFails : Resolver :=
  { LookupMX := fun _ => ([], some "i/o timeout"),
    LookupTXT := resExample.LookupTXT }

/-- A resolver whose TXT answers hold near-misses of the two prefixes before
records that carry them. -/
def resLiteral : Resolver :=
  { LookupMX := fun _ => ([], none),
    LookupTXT := fun n =>
      if n = "example.org" then
        ([" v=spf1 -all", "V=SPF1 -all", "v=spf10 -all", "v=spf1 -all"], none)
      else if n = "_dmarc.example.org" then
        (["v=dmarc1; p=none", "v=DMARC1; p=none"], none)
      else if n = "example.net" then (["v=spf1x"], none)
      else if n = "_dmarc.example.net" then ([" v=DMARC1; p=none", "V=DMARC1"], none)
      else ([], some "no such host") }

/-! # Theorems -/

/-! ## Lemmas on `strings.HasPrefix` and the scan loops -/

theorem HasPrefix_iff_take (s pfx : String) :
    HasPrefix s pfx = true ↔ s.data.take pfx.length = pfx.data := by
  unfold HasPrefix
  simp only [Bool.and_eq_true, decide_eq_true_eq]
  constructor
  · exact fun h => h.2
  · intro h
    refine ⟨?_, h⟩
    have hl := congrArg List.length h
    simp only [List.length_take, String.length] at hl ⊢
    omega

theorem HasPrefix_ne_empty (s pfx : String) (hp : pfx ≠ "") (h : HasPrefix s pfx = true) :
    s ≠ "" := by
  rintro rfl
  rw [HasPrefix_iff_take] at h
  apply hp
  have : pfx.data = [] := by simpa using h.symm
  exact String.ext this

theorem scanSPF_eq (L : List String) (e : Locals) :
    scanSPF L e =
      match L.find? (fun r => HasPrefix r "v=spf1") with
      | some r => { e with hasSPF := true, spfRecord := r }
      | none => e := by
  induction L with
  | nil => rfl
  | cons r rest ih =>
    by_cases h : HasPrefix r "v=spf1" = true
    · simp [scanSPF, List.find?, h]
    · simp [scanSPF, List.find?, h, ih]

theorem scanDMARC_eq (L : List String) (e : Locals) :
    scanDMARC L e =
      match L.find? (fun r => HasPrefix r "v=DMARC1") with
      | some r => { e with hasDMARC := true, dmarcRecord := r }
      | none => e := by
  induction L with
  | nil => rfl
  | cons r rest ih =>
    by_cases h : HasPrefix r "v=DMARC1" = true
    · simp [scanDMARC, List.find?, h]
    · simp [scanDMARC, List.find?, h, ih]

/-- The fields of the result in closed form: each is a function of the one
response it is computed from. -/
theorem checkDomain_eq (res : Resolver) (d : String) :
    checkDomain res d =
      { Domain := d,
        HasMX := (res.LookupMX d).2.isNone && decide ((res.LookupMX d).1.length > 0),
        HasSPF := (firstWith "v=spf1" (res.LookupTXT d)).isSome,
        SPFRecord := (firstWith "v=spf1" (res.LookupTXT d)).getD "",
        HasDMARC := (firstWith "v=DMARC1" (res.LookupTXT ("_dmarc." ++ d))).isSome,
        DMARCRecord := (firstWith "v=DMARC1" (res.LookupTXT ("_dmarc." ++ d))).getD "" } := by
  unfold checkDomain checkDomainLocals stepDMARC stepSPF stepMX assemble firstWith
  simp only [scanSPF_eq, scanDMARC_eq, Locals.zero]
  cases h1 : (res.LookupMX d).2.isNone && decide ((res.LookupMX d).1.length > 0) <;>
  cases h2 : (res.LookupTXT d).2.isNone <;>
  cases h3 : (res.LookupTXT ("_dmarc." ++ d)).2.isNone <;>
  cases h4 : (res.LookupTXT d).1.find? (fun r => HasPrefix r "v=spf1") <;>
  cases h5 : (res.LookupTXT ("_dmarc." ++ d)).1.find? (fun r => HasPrefix r "v=DMARC1") <;>
  simp

/-- The query log of one call in closed form: the three lookups are made
unconditionally, in source order. -/
theorem checkDomainQueries_eq (res : Resolver) (d : String) :
    checkDomainQueries res d = [Query.MX d, Query.TXT d, Query.TXT ("_dmarc." ++ d)] := by
  unfold checkDomainQueries checkDomainLocals stepDMARC stepSPF stepMX
  simp only [scanSPF_eq, scanDMARC_eq, Locals.zero]
  cases (res.LookupMX d).2.isNone && decide ((res.LookupMX d).1.length > 0) <;>
  cases (res.LookupTXT d).2.isNone <;>
  cases (res.LookupTXT ("_dmarc." ++ d)).2.isNone <;>
  cases (res.LookupTXT d).1.find? (fun r => HasPrefix r "v=spf1") <;>
  cases (res.LookupTXT ("_dmarc." ++ d)).1.find? (fun r => HasPrefix r "v=DMARC1") <;>
  simp

theorem find?_first {α : Type} (p : α → Bool) (pre : List α) (r : α) (post : List α)
    (hpre : ∀ x ∈ pre, p x = false) (hr : p r = true) :
    (pre ++ r :: post).find? p = some r := by
  induction pre with
  | nil => simp [List.find?, hr]
  | cons a as ih =>
    have ha : p a = false := hpre a (List.mem_cons_self _ _)
    simp only [List.cons_append, List.find?, ha]
    exact ih (fun x hx => hpre x (List.mem_cons_of_mem _ hx))

theorem find?_none_of_all {α : Type} (p : α → Bool) (L : List α)
    (h : ∀ x ∈ L, p x = false) : L.find? p = none := by
  rw [List.find?_eq_none]
  intro x hx
  simp [h x hx]

/-! ## The SPF lookup -/

/-- C1: when the TXT lookup for the domain succeeds with record list `L`, the
first record of `L` (in the order of `L`) that begins with `"v=spf1"` is
reported in full with `HasSPF = true`, whatever follows it in `L`; when no
record of `L` begins with `"v=spf1"`, `HasSPF = false` and `SPFRecord = ""`. -/
theorem checkDomain_spf_first_match (res : Resolver) (d : String) (L : List String)
    (hL : res.LookupTXT d = (L, none)) :
    (∀ pre r post, L = pre ++ r :: post →
        (∀ x ∈ pre, HasPrefix x "v=spf1" = false) → HasPrefix r "v=spf1" = true →
        (checkDomain res d).HasSPF = true ∧ (checkDomain res d).SPFRecord = r) ∧
    ((∀ x ∈ L, HasPrefix x "v=spf1" = false) →
        (checkDomain res d).HasSPF = false ∧ (checkDomain res d).SPFRecord = "") := by
  rw [checkDomain_eq]
  constructor
  · intro pre r post hsplit hpre hr
    have hf : L.find? (fun r => HasPrefix r "v=spf1") = some r := by
      rw [hsplit]; exact find?_first _ pre r post hpre hr
    simp [firstWith, hL, hf]
  · intro hnone
    have hf : L.find? (fun r => HasPrefix r "v=spf1") = none := find?_none_of_all _ L hnone
    simp [firstWith, hL, hf]

/-- C1, the scenario of the specification: the SPF record of `example.com` is
the first TXT record, and a later matching record is ignored. -/
theorem checkDomain_spf_first_match_witness :
    resExample.LookupTXT "example.com"
        = (["v=spf1 include:_spf.example.com ~all", "unrelated=1"], none) ∧
      (checkDomain resExample "example.com").HasSPF = true ∧
      (checkDomain resExample "example.com").SPFRecord
        = "v=spf1 include:_spf.example.com ~all" :=
  ⟨by decide,
   (checkDomain_spf_first_match resExample "example.com"
      ["v=spf1 include:_spf.example.com ~all", "unrelated=1"] (by decide)).1
      [] "v=spf1 include:_spf.example.com ~all" ["unrelated=1"] (by decide) (by decide)
      (by decide)⟩

/-! ## The MX lookup -/

/-- C3: `HasMX` is true exactly when the MX lookup returns a nil error and at
least one record; it is false exactly when the lookup returns a non-nil error
or an empty record list. -/
theorem checkDomain_hasMX_iff (res : Resolver) (d : String) :
    ((checkDomain res d).HasMX = true ↔
      ((res.LookupMX d).2 = none ∧ (res.LookupMX d).1.length ≥ 1)) ∧
    ((checkDomain res d).HasMX = false ↔
      ((res.LookupMX d).2 ≠ none ∨ (res.LookupMX d).1 = [])) := by
  have htrue : (checkDomain res d).HasMX = true ↔
      ((res.LookupMX d).2 = none ∧ (res.LookupMX d).1.length ≥ 1) := by
    rw [checkDomain_eq]
    simp only [Bool.and_eq_true, decide_eq_true_eq, Option.isNone_iff_eq_none]
    constructor <;> intro h <;> exact ⟨h.1, by omega⟩
  refine ⟨htrue, ?_⟩
  rw [← Bool.not_eq_true, htrue]
  constructor
  · intro h
    by_cases he : (res.LookupMX d).2 = none
    · right
      cases hl : (res.LookupMX d).1 with
      | nil => rfl
      | cons a as => exact absurd ⟨he, by simp [hl]⟩ h
    · exact Or.inl he
  · rintro (h | h) ⟨h1, h2⟩
    · exact h h1
    · simp [h] at h2

/-- C4 as stated fails: a lookup that returns one MX record together with a
non-nil error (Go's `net.LookupMX` does so when it drops malformed records
from the answer) gives `HasMX = false`. -/
theorem checkDomain_hasMX_records_with_error :
    (resPartial.LookupMX "example.com").1.length ≥ 1 ∧
      (checkDomain resPartial "example.com").HasMX = false := by
  decide

/-- C4, amended: a lookup that returns a nil error and at least one MX record
gives `HasMX = true`; a lookup that returns no record, or a non-nil error
(NXDOMAIN among them), gives `HasMX = false`. -/
theorem checkDomain_hasMX_cases (res : Resolver) (d : String) :
    ((res.LookupMX d).2 = none → (res.LookupMX d).1.length ≥ 1 →
        (checkDomain res d).HasMX = true) ∧
    ((res.LookupMX d).1 = [] → (checkDomain res d).HasMX = false) ∧
    ((res.LookupMX d).2 ≠ none → (checkDomain res d).HasMX = false) := by
  rw [checkDomain_eq]
  refine ⟨?_, ?_, ?_⟩
  · intro h1 h2
    simp only [h1, Option.isNone_none, Bool.true_and, decide_eq_true_eq]
    omega
  · intro h
    simp [h]
  · intro h
    cases h2 : (res.LookupMX d).2 with
    | none => exact absurd h2 h
    | some e => simp

/-- C4, amended, at concrete inputs: `example.com` resolves to one MX record
without error, `nodns.invalid` fails to resolve. -/
theorem checkDomain_hasMX_cases_witness :
    (checkDomain resExample "example.com").HasMX = true ∧
      (checkDomain resExample "nodns.invalid").HasMX = false ∧
      (checkDomain resFailing "nodns.invalid").HasMX = false :=
  ⟨(checkDomain_hasMX_cases resExample "example.com").1 (by decide) (by decide),
   (checkDomain_hasMX_cases resExample "nodns.invalid").2.1 (by decide),
   (checkDomain_hasMX_cases resFailing "nodns.invalid").2.2 (by decide)⟩

/-! ## The DMARC lookup -/

/-- C2: the queries of one call are the MX and TXT queries for `d` and one
further TXT query, for the name `"_dmarc." ++ d`; and when that query succeeds
with record list `L`, the first record of `L` that begins with `"v=DMARC1"` is
reported in full with `HasDMARC = true`, and `HasDMARC = false`,
`DMARCRecord = ""` when there is none. -/
theorem checkDomain_dmarc_query (res : Resolver) (d : String) :
    checkDomainQueries res d = [Query.MX d, Query.TXT d, Query.TXT ("_dmarc." ++ d)] ∧
    ∀ L, res.LookupTXT ("_dmarc." ++ d) = (L, none) →
      (∀ pre r post, L = pre ++ r :: post →
          (∀ x ∈ pre, HasPrefix x "v=DMARC1" = false) → HasPrefix r "v=DMARC1" = true →
          (checkDomain res d).HasDMARC = true ∧ (checkDomain res d).DMARCRecord = r) ∧
      ((∀ x ∈ L, HasPrefix x "v=DMARC1" = false) →
          (checkDomain res d).HasDMARC = false ∧ (checkDomain res d).DMARCRecord = "") := by
  constructor
  · exact checkDomainQueries_eq res d
  · intro L hL
    rw [checkDomain_eq]
    constructor
    · intro pre r post hsplit hpre hr
      have hf : L.find? (fun r => HasPrefix r "v=DMARC1") = some r := by
        rw [hsplit]; exact find?_first _ pre r post hpre hr
      simp [firstWith, hL, hf]
    · intro hnone
      have hf : L.find? (fun r => HasPrefix r "v=DMARC1") = none :=
        find?_none_of_all _ L hnone
      simp [firstWith, hL, hf]

/-- C2 at concrete inputs: for a domain that ends with a dot and starts with
`"_dmarc."` the queried name is the plain concatenation, and the first
matching record of the answer is reported. -/
theorem checkDomain_dmarc_query_witness :
    checkDomainQueries resDotted "_dmarc.example.com."
        = [Query.MX "_dmarc.example.com.", Query.TXT "_dmarc.example.com.",
           Query.TXT "_dmarc._dmarc.example.com."] ∧
      (checkDomain resDotted "_dmarc.example.com.").HasDMARC = true ∧
      (checkDomain resDotted "_dmarc.example.com.").DMARCRecord = "v=DMARC1; p=reject;" :=
  ⟨(checkDomain_dmarc_query resDotted "_dmarc.example.com.").1,
   ((checkDomain_dmarc_query resDotted "_dmarc.example.com.").2
      ["spf=none", "v=DMARC1; p=reject;", "v=DMARC1; p=none;"] (by decide)).1
      ["spf=none"] "v=DMARC1; p=reject;" ["v=DMARC1; p=none;"] (by decide) (by decide)
      (by decide)⟩

/-! ## Lookup errors and the invariant of the result -/

/-- C5: `checkDomain` returns a `DomainCheck` for every resolver and every
domain, with `Domain` the input; a lookup that returns a non-nil error leaves
its boolean `false` and its record `""`; and when all three lookups return an
error the result is the all-false, all-empty record for the domain. -/
theorem checkDomain_absorbs_errors (res : Resolver) (d : String) :
    (∃ r : DomainCheck, checkDomain res d = r ∧ r.Domain = d) ∧
    ((res.LookupMX d).2 ≠ none → (checkDomain res d).HasMX = false) ∧
    ((res.LookupTXT d).2 ≠ none →
        (checkDomain res d).HasSPF = false ∧ (checkDomain res d).SPFRecord = "") ∧
    ((res.LookupTXT ("_dmarc." ++ d)).2 ≠ none →
        (checkDomain res d).HasDMARC = false ∧ (checkDomain res d).DMARCRecord = "") ∧
    ((res.LookupMX d).2 ≠ none → (res.LookupTXT d).2 ≠ none →
        (res.LookupTXT ("_dmarc." ++ d)).2 ≠ none →
        checkDomain res d =
          { Domain := d, HasMX := false, HasSPF := false, SPFRecord := "",
            HasDMARC := false, DMARCRecord := "" }) := by
  have key : ∀ o : Option GoError, o ≠ none → o.isNone = false := by
    intro o ho
    cases o with
    | none => exact absurd rfl ho
    | some e => rfl
  rw [checkDomain_eq]
  refine ⟨⟨_, rfl, rfl⟩, ?_, ?_, ?_, ?_⟩
  · intro h; simp [key _ h]
  · intro h; simp [firstWith, key _ h]
  · intro h; simp [firstWith, key _ h]
  · intro h1 h2 h3; simp [firstWith, key _ h1, key _ h2, key _ h3]

/-- C5 at `nodns.invalid` with every lookup failing. -/
theorem checkDomain_absorbs_errors_witness :
    checkDomain resFailing "nodns.invalid" =
      { Domain := "nodns.invalid", HasMX := false, HasSPF := false, SPFRecord := "",
        HasDMARC := false, DMARCRecord := "" } :=
  (checkDomain_absorbs_errors resFailing "nodns.invalid").2.2.2.2
    (by decide) (by decide) (by decide)

/-- C6: in every result, `HasSPF` holds exactly when `SPFRecord` is non-empty
and begins with `"v=spf1"`, `HasDMARC` holds exactly when `DMARCRecord` is
non-empty and begins with `"v=DMARC1"`, and each record is non-empty exactly
when its boolean holds. -/
theorem checkDomain_invariant (res : Resolver) (d : String) :
    ((checkDomain res d).HasSPF = true ↔
      ((checkDomain res d).SPFRecord ≠ "" ∧
        HasPrefix (checkDomain res d).SPFRecord "v=spf1" = true)) ∧
    ((checkDomain res d).HasDMARC = true ↔
      ((checkDomain res d).DMARCRecord ≠ "" ∧
        HasPrefix (checkDomain res d).DMARCRecord "v=DMARC1" = true)) ∧
    ((checkDomain res d).SPFRecord ≠ "" ↔ (checkDomain res d).HasSPF = true) ∧
    ((checkDomain res d).DMARCRecord ≠ "" ↔ (checkDomain res d).HasDMARC = true) := by
  have key : ∀ (pfx : String) (resp : List String × Option GoError), pfx ≠ "" →
      (((firstWith pfx resp).isSome = true ↔
          ((firstWith pfx resp).getD "" ≠ "" ∧
            HasPrefix ((firstWith pfx resp).getD "") pfx = true)) ∧
        ((firstWith pfx resp).getD "" ≠ "" ↔ (firstWith pfx resp).isSome = true)) := by
    intro pfx resp hp
    cases h : firstWith pfx resp with
    | none =>
      simp
    | some r =>
      have hr : HasPrefix r pfx = true := by
        unfold firstWith at h
        split at h
        · have := List.find?_some h
          simpa using this
        · cases h
      have hne : r ≠ "" := HasPrefix_ne_empty r pfx hp hr
      simp [hr, hne]
  rw [checkDomain_eq]
  have h1 := key "v=spf1" (res.LookupTXT d) (by decide)
  have h2 := key "v=DMARC1" (res.LookupTXT ("_dmarc." ++ d)) (by decide)
  exact ⟨h1.1, h2.1, h1.2, h2.2⟩

/-! ## `checkHandler` -/

/-- C7: a POST request whose form has no value for `"domain"`, or has the
empty string as its first value, is answered with status 400 and the text
`Domain is required`, without any call of `checkDomain` and without any DNS
query; a POST request whose first value `v` for `"domain"` is non-empty leads
to exactly one call of `checkDomain`, on `v` itself, with its three queries
for `v`, and the response is status 200 with the page of that call's result,
whose `Domain` is `v`. -/
theorem checkHandler_post (res : Resolver) (r : Request) (hm : r.Method = "POST") :
    ((r.Form "domain" = [] ∨ ∃ vs, r.Form "domain" = "" :: vs) →
        (checkHandler res r).response.status = 400 ∧
        (checkHandler res r).response.body = Body.text "Domain is required\n" ∧
        (checkHandler res r).checked = [] ∧ (checkHandler res r).issued = []) ∧
    (∀ v vs, r.Form "domain" = v :: vs → v ≠ "" →
        (checkHandler res r).checked = [v] ∧
        (checkHandler res r).response.status = 200 ∧
        (checkHandler res r).response.body = Body.page (some (checkDomain res v)) ∧
        (∃ dc, (checkHandler res r).response.body = Body.page (some dc) ∧ dc.Domain = v) ∧
        (checkHandler res r).issued
          = [Query.MX v, Query.TXT v, Query.TXT ("_dmarc." ++ v)]) := by
  constructor
  · intro h
    have hv : r.FormValue "domain" = "" := by
      unfold Request.FormValue
      rcases h with h | ⟨vs, h⟩ <;> rw [h]
    simp [checkHandler, hm, MethodPost, hv, httpError, StatusBadRequest]
  · intro v vs h hne
    have hv : r.FormValue "domain" = v := by
      unfold Request.FormValue
      rw [h]
    have hresp : (checkHandler res r).response = tmplExecute (some (checkDomain res v)) := by
      simp [checkHandler, hm, MethodPost, hv, hne]
    refine ⟨?_, ?_, ?_, ?_, ?_⟩
    · simp [checkHandler, hm, MethodPost, hv, hne]
    · rw [hresp]; rfl
    · rw [hresp]; rfl
    · refine ⟨checkDomain res v, ?_, ?_⟩
      · rw [hresp]; rfl
      · rw [checkDomain_eq]
    · rw [← checkDomainQueries_eq res v]
      simp [checkHandler, hm, MethodPost, hv, hne]

/-- C7 at concrete requests: a POST without a `domain` value is refused with
400, and a POST for `example.com` is answered with status 200 and the page of
the scenario's result. -/
theorem checkHandler_post_witness :
    ((checkHandler resExample reqPostNoDomain).response.status = 400 ∧
        (checkHandler resExample reqPostNoDomain).response.body
          = Body.text "Domain is required\n" ∧
        (checkHandler resExample reqPostNoDomain).checked = [] ∧
        (checkHandler resExample reqPostNoDomain).issued = []) ∧
      ((checkHandler resExample reqPostExample).checked = ["example.com"] ∧
        (checkHandler resExample reqPostExample).response.status = 200 ∧
        (checkHandler resExample reqPostExample).response.body
          = Body.page (some
              { Domain := "example.com", HasMX := true, HasSPF := true,
                SPFRecord := "v=spf1 include:_spf.example.com ~all",
                HasDMARC := true, DMARCRecord := "v=DMARC1; p=none;" }) ∧
        (checkHandler resExample reqPostExample).issued
          = [Query.MX "example.com", Query.TXT "example.com",
             Query.TXT "_dmarc.example.com"]) :=
  ⟨(checkHandler_post resExample reqPostNoDomain rfl).1 (Or.inl (by decide)),
   ((checkHandler_post resExample reqPostExample rfl).2 "example.com" [] (by decide)
      (by decide)).1,
   ((checkHandler_post resExample reqPostExample rfl).2 "example.com" [] (by decide)
      (by decide)).2.1,
   ((checkHandler_post resExample reqPostExample rfl).2 "example.com" [] (by decide)
      (by decide)).2.2.1,
   ((checkHandler_post resExample reqPostExample rfl).2 "example.com" [] (by decide)
      (by decide)).2.2.2.2⟩

/-- C8: a request whose method is not `POST` is answered with status 405
without any call of `checkDomain` and without any DNS query, whatever its
form holds; in particular with an empty or absent `domain` value the status
is 405 and not 400. -/
theorem checkHandler_not_post (res : Resolver) (r : Request) (hm : r.Method ≠ "POST") :
    (checkHandler res r).response.status = 405 ∧
      (checkHandler res r).response.status ≠ 400 ∧
      (checkHandler res r).checked = [] ∧ (checkHandler res r).issued = [] := by
  simp [checkHandler, hm, MethodPost, httpError, StatusMethodNotAllowed]

/-- C8 at a GET request with an empty `domain` value. -/
theorem checkHandler_not_post_witness :
    reqGetEmpty.FormValue "domain" = "" ∧
      (checkHandler resExample reqGetEmpty).response.status = 405 ∧
      (checkHandler resExample reqGetEmpty).response.status ≠ 400 ∧
      (checkHandler resExample reqGetEmpty).checked = [] ∧
      (checkHandler resExample reqGetEmpty).issued = [] :=
  ⟨by decide, checkHandler_not_post resExample reqGetEmpty (by decide)⟩

/-! ## Independence of the three lookups -/

theorem dmarc_name_ne (d : String) : "_dmarc." ++ d ≠ d := by
  intro h
  have hl := congrArg String.length h
  rw [String.length_append] at hl
  have h7 : "_dmarc.".length = 7 := by decide
  omega

theorem stepMX_fields (res : Resolver) (d : String) (e : Locals) :
    (stepMX res d e).hasMX
        = ((res.LookupMX d).2.isNone && decide ((res.LookupMX d).1.length > 0) || e.hasMX) ∧
      (stepMX res d e).hasSPF = e.hasSPF ∧ (stepMX res d e).spfRecord = e.spfRecord ∧
      (stepMX res d e).hasDMARC = e.hasDMARC ∧
      (stepMX res d e).dmarcRecord = e.dmarcRecord := by
  cases h : ((res.LookupMX d).2.isNone && decide ((res.LookupMX d).1.length > 0))
  · simp [stepMX, h]
  · simp [stepMX, h]

theorem stepSPF_fields (res : Resolver) (d : String) (e : Locals) :
    (stepSPF res d e).hasMX = e.hasMX ∧
      (stepSPF res d e).hasSPF = ((firstWith "v=spf1" (res.LookupTXT d)).isSome || e.hasSPF) ∧
      (stepSPF res d e).spfRecord = (firstWith "v=spf1" (res.LookupTXT d)).getD e.spfRecord ∧
      (stepSPF res d e).hasDMARC = e.hasDMARC ∧
      (stepSPF res d e).dmarcRecord = e.dmarcRecord := by
  unfold stepSPF firstWith
  simp only [scanSPF_eq]
  cases (res.LookupTXT d).2.isNone <;>
  cases (res.LookupTXT d).1.find? (fun r => HasPrefix r "v=spf1") <;> simp

theorem stepDMARC_fields (res : Resolver) (d : String) (e : Locals) :
    (stepDMARC res d e).hasMX = e.hasMX ∧
      (stepDMARC res d e).hasSPF = e.hasSPF ∧
      (stepDMARC res d e).spfRecord = e.spfRecord ∧
      (stepDMARC res d e).hasDMARC
        = ((firstWith "v=DMARC1" (res.LookupTXT ("_dmarc." ++ d))).isSome || e.hasDMARC) ∧
      (stepDMARC res d e).dmarcRecord
        = (firstWith "v=DMARC1" (res.LookupTXT ("_dmarc." ++ d))).getD e.dmarcRecord := by
  unfold stepDMARC firstWith
  simp only [scanDMARC_eq]
  cases (res.LookupTXT ("_dmarc." ++ d)).2.isNone <;>
  cases (res.LookupTXT ("_dmarc." ++ d)).1.find? (fun r => HasPrefix r "v=DMARC1") <;> simp

/-- The result of the three blocks in the order `a, b, c`, whenever these are
the three blocks in some order. -/
theorem checkDomainInOrder_three (a b c : Lookup)
    (horder : [a, b, c].Perm [Lookup.MX, Lookup.SPF, Lookup.DMARC])
    (res : Resolver) (d : String) :
    checkDomainInOrder [a, b, c] res d = checkDomain res d := by
  rw [checkDomain_eq]
  unfold checkDomainInOrder assemble
  revert horder
  cases a <;> cases b <;> cases c <;> intro horder <;>
  first
  | exact absurd horder (by decide)
  | simp [List.foldl, Lookup.step, stepMX_fields, stepSPF_fields, stepDMARC_fields,
      Locals.zero]

theorem checkDomainInOrder_eq (order : List Lookup)
    (horder : order.Perm [Lookup.MX, Lookup.SPF, Lookup.DMARC])
    (res : Resolver) (d : String) :
    checkDomainInOrder order res d = checkDomain res d := by
  have hlen : order.length = 3 := horder.length_eq
  obtain ⟨a, b, c, rfl⟩ := List.length_eq_three.1 hlen
  exact checkDomainInOrder_three a b c horder res d

/-- C9: with the resolver a fixed function of query type and name, the three
blocks of `checkDomain` performed in any of the six orders give the result of
`checkDomain`; `HasMX` is determined by the MX response for the domain,
`HasSPF` and `SPFRecord` by the TXT response for the domain, `HasDMARC` and
`DMARCRecord` by the TXT response for `"_dmarc." ++ domain`, a name different
from the domain; so two resolvers that differ in one of the three responses
agree on the fields of the other two. -/
theorem checkDomain_lookups_independent (res : Resolver) (d : String) :
    (∀ order : List Lookup, order.Perm [Lookup.MX, Lookup.SPF, Lookup.DMARC] →
        checkDomainInOrder order res d = checkDomain res d) ∧
    "_dmarc." ++ d ≠ d ∧
    (∀ res2 : Resolver, res2.LookupMX d = res.LookupMX d →
        (checkDomain res2 d).HasMX = (checkDomain res d).HasMX) ∧
    (∀ res2 : Resolver, res2.LookupTXT d = res.LookupTXT d →
        (checkDomain res2 d).HasSPF = (checkDomain res d).HasSPF ∧
        (checkDomain res2 d).SPFRecord = (checkDomain res d).SPFRecord) ∧
    (∀ res2 : Resolver, res2.LookupTXT ("_dmarc." ++ d) = res.LookupTXT ("_dmarc." ++ d) →
        (checkDomain res2 d).HasDMARC = (checkDomain res d).HasDMARC ∧
        (checkDomain res2 d).DMARCRecord = (checkDomain res d).DMARCRecord) := by
  refine ⟨fun order h => checkDomainInOrder_eq order h res d, dmarc_name_ne d, ?_, ?_, ?_⟩
  · intro res2 h
    simp only [checkDomain_eq, h]
  · intro res2 h
    simp only [checkDomain_eq, h, and_self]
  · intro res2 h
    simp only [checkDomain_eq, h, and_self]

/-- C9 at concrete inputs: the order DMARC, MX, SPF gives the result of
`checkDomain`; a `"v=DMARC1"` record put first in the apex TXT response, and a
failing MX lookup, each leave the fields of the other lookups as they were. -/
theorem checkDomain_lookups_independent_witness :
    checkDomainInOrder [Lookup.DMARC, Lookup.MX, Lookup.SPF] resExample "example.com"
        = checkDomain resExample "example.com" ∧
      ((checkDomain resApexDmarc "example.com").HasDMARC
          = (checkDomain resExample "example.com").HasDMARC ∧
        (checkDomain resApexDmarc "example.com").DMARCRecord
          = (checkDomain resExample "example.com").DMARCRecord) ∧
      ((checkDomain resMXFails "example.com").HasSPF
          = (checkDomain resExample "example.com").HasSPF ∧
        (checkDomain resMXFails "example.com").SPFRecord
          = (checkDomain resExample "example.com").SPFRecord) :=
  ⟨(checkDomain_lookups_independent resExample "example.com").1
      [Lookup.DMARC, Lookup.MX, Lookup.SPF] (by decide),
   (checkDomain_lookups_independent resExample "example.com").2.2.2.2 resApexDmarc
      (by decide),
   (checkDomain_lookups_independent resExample "example.com").2.2.2.1 resMXFails
      (by decide)⟩

/-! ## Literal prefix matching -/

/-- C10: in both scan loops a record is taken exactly when its first six
(SPF) or eight (DMARC) characters are the literal prefix, whatever follows,
and is skipped in favour of the rest of the list otherwise; so `"v=spf10 -all"`
and `"v=spf1x"` are reported as SPF records, while a record with a leading
space, `"V=SPF1 -all"` and `"v=dmarc1; p=none"` are passed over for a later
matching record. -/
theorem scan_literal_prefix :
    (∀ (r : String) (rest : List String) (e : Locals),
        scanSPF (r :: rest) e =
          if r.data.take 6 = ['v', '=', 's', 'p', 'f', '1'] then
            { e with hasSPF := true, spfRecord := r }
          else scanSPF rest e) ∧
    (∀ (r : String) (rest : List String) (e : Locals),
        scanDMARC (r :: rest) e =
          if r.data.take 8 = ['v', '=', 'D', 'M', 'A', 'R', 'C', '1'] then
            { e with hasDMARC := true, dmarcRecord := r }
          else scanDMARC rest e) ∧
    (∀ tail : String, HasPrefix ("v=spf1" ++ tail) "v=spf1" = true ∧
        HasPrefix ("v=DMARC1" ++ tail) "v=DMARC1" = true) ∧
    (checkDomain resLiteral "example.org").SPFRecord = "v=spf10 -all" ∧
    (checkDomain resLiteral "example.org").DMARCRecord = "v=DMARC1; p=none" ∧
    (checkDomain resLiteral "example.net").SPFRecord = "v=spf1x" ∧
    (checkDomain resLiteral "example.net").HasDMARC = false := by
  refine ⟨?_, ?_, ?_, by decide, by decide, by decide, by decide⟩
  · intro r rest e
    have h : HasPrefix r "v=spf1" = true ↔ r.data.take 6 = ['v', '=', 's', 'p', 'f', '1'] :=
      HasPrefix_iff_take r "v=spf1"
    by_cases hp : HasPrefix r "v=spf1" = true
    · rw [scanSPF, if_pos hp, if_pos (h.1 hp)]
    · rw [scanSPF, if_neg hp, if_neg (fun hc => hp (h.2 hc))]
  · intro r rest e
    have h : HasPrefix r "v=DMARC1" = true ↔
        r.data.take 8 = ['v', '=', 'D', 'M', 'A', 'R', 'C', '1'] :=
      HasPrefix_iff_take r "v=DMARC1"
    by_cases hp : HasPrefix r "v=DMARC1" = true
    · rw [scanDMARC, if_pos hp, if_pos (h.1 hp)]
    · rw [scanDMARC, if_neg hp, if_neg (fun hc => hp (h.2 hc))]
  · intro tail
    constructor <;> rw [HasPrefix_iff_take] <;> simp [String.data_append] <;> rfl

end EmailChecker
